import Mathlib

/-!
Verification of the data-quality scoring and alerting engine of this
repository against its natural-language specification.

The embedding covers the two implementations of the engine:
`backend/src/data_quality_pipeline.py` (class `DataQualityPipeline`, the
`pipeline_*` definitions below) and
`backend/src/handlers/data_quality.py` (class `DataQualityHandler`, the
`handler_*` definitions below).  External collaborators (the OpenSearch
store, S3, SNS, Bedrock) are modelled as explicit inputs: a checker that
reads document counts from the store becomes a function of those counts,
and the Bedrock accuracy validator becomes a value describing the outcome
of the call (a response text, or an exception).  Scores use exact rational
arithmetic in place of Python floats.
-/

namespace DataQuality

/-! ## Documents and the completeness checker (data_quality_pipeline.py, check_data_completeness)

A document's `_source` is a string-keyed mapping.  The required fields of
this pipeline (ids, titles, dates, sources, ...) are string-valued, so a
field value is a `String`; a field that is absent from the document (or
whose JSON value is null, which `dict.get` also reports as `None`) simply
has no entry.  `Doc.get` is Python's `source_data.get(field)`.
-/

/-- A document: association list from field name to string value. -/
def Doc := List (String × String)

/-- `source_data.get(field)`: first entry for the field, if any. -/
def Doc.get (d : Doc) (f : String) : Option String :=
  (List.find? (fun p => p.1 == f) d).map Prod.snd

/-- Python truthiness test `not source_data.get(field)` on the lookup
result: `None` and the empty string are falsy, every other string truthy. -/
def pyFalsy : Option String → Bool
  | none => true
  | some s => s == ""

/-- `missing_fields = [field for field in fields if not source_data.get(field)]`
(data_quality_pipeline.py line 81). -/
def missing_fields (fields : List String) (d : Doc) : List String :=
  fields.filter (fun f => pyFalsy (d.get f))

/-- `if not missing_fields: complete_docs += 1` — a document counts as
complete exactly when its missing-field list is empty (line 83). -/
def isCompleteDoc (fields : List String) (d : Doc) : Bool :=
  (missing_fields fields d).isEmpty

/-- Number of complete documents in a retrieved sample. -/
def complete_docs (fields : List String) (docs : List Doc) : Nat :=
  (docs.filter (isCompleteDoc fields)).length

/-- `completeness_score = complete_docs / total_docs if total_docs > 0 else 0`
(line 86). -/
def completeness_score (fields : List String) (docs : List Doc) : ℚ :=
  if docs.length > 0 then (complete_docs fields docs : ℚ) / docs.length else 0

/-- The per-collection completeness thresholds entry (`self.quality_thresholds['completeness']`). -/
def completeness_threshold : ℚ := 85 / 100

/-- Per-collection entry of `completeness_results`. -/
structure CompletenessResult where
  total_documents : Nat
  complete_documents : Nat
  score : ℚ
  meets_threshold : Bool
deriving DecidableEq, Repr

/-- One iteration of the `for index, fields in required_fields.items()` loop
of `check_data_completeness`: the body runs only under `if documents:`
(line 75), so a collection whose query returned no documents produces no
entry in `completeness_results` at all. -/
def check_collection_completeness (fields : List String) (docs : List Doc) :
    Option CompletenessResult :=
  if docs.isEmpty then none
  else
    some { total_documents := docs.length
         , complete_documents := complete_docs fields docs
         , score := completeness_score fields docs
         , meets_threshold := decide (completeness_score fields docs ≥ completeness_threshold) }

/-- The spec's notion for a required field: present in the document with a
non-empty value. -/
def presentAndNonEmpty (d : Doc) (f : String) : Prop :=
  ∃ s, d.get f = some s ∧ s ≠ ""

/-- Claim C8: a document is counted complete by `check_data_completeness`
if and only if every required field is present and non-empty; in
particular a document missing any one required field is never counted
complete, regardless of the other fields (no partial credit). -/
theorem complete_iff_every_required_field_present_nonEmpty
    (fields : List String) (d : Doc) :
    isCompleteDoc fields d = true ↔ ∀ f ∈ fields, presentAndNonEmpty d f := by
  unfold isCompleteDoc missing_fields
  rw [List.isEmpty_iff, List.filter_eq_nil_iff]
  refine forall₂_congr (fun f _ => ?_)
  unfold presentAndNonEmpty
  cases h : d.get f with
  | none => simp [pyFalsy, h]
  | some s =>
    simp only [pyFalsy, h, Bool.not_eq_true, beq_eq_false_iff_ne, ne_eq,
      Option.some.injEq]
    constructor
    · exact fun hs => ⟨s, rfl, hs⟩
    · rintro ⟨t, rfl, ht⟩; exact ht

/-! ## Timeliness checker (data_quality_pipeline.py, check_data_timeliness)

The store interactions (`count_documents` with and without the recency
filter) are modelled by their results: the number of recent documents and
the total number of documents in the collection. -/

/-- `timeliness_score = recent_count / total_count if total_count > 0 else 0`
(data_quality_pipeline.py line 223). -/
def timeliness_score (recent_count total_count : Nat) : ℚ :=
  if total_count > 0 then (recent_count : ℚ) / total_count else 0

/-! ## Uniqueness checker (both files)

The duplicate aggregation (`terms` with `min_doc_count: 2`) is modelled by
the list of bucket sizes it returns; every returned bucket has
`doc_count ≥ 2` by construction of the query. -/

/-- `duplicate_count = sum(bucket['doc_count'] - 1 for bucket in duplicates)`
(data_quality_pipeline.py line 309): only the extra occurrences in each
duplicate group are counted.  Python integer subtraction, hence `Int`. -/
def duplicate_count (buckets : List Nat) : Int :=
  (buckets.map (fun doc_count => (doc_count : Int) - 1)).sum

/-- `uniqueness_score = (total_count - duplicate_count) / total_count if total_count > 0 else 1`
(data_quality_pipeline.py line 311). -/
def uniqueness_score (total_count : Nat) (buckets : List Nat) : ℚ :=
  if total_count > 0 then ((total_count : ℚ) - (duplicate_count buckets : ℚ)) / total_count
  else 1

/-- `duplicate_count = len(duplicates_results...buckets)` in
handlers/data_quality.py `check_data_uniqueness` (line 304): the handler
counts duplicate *groups*, not extra occurrences, and computes no score. -/
def handler_duplicate_count (buckets : List Nat) : Nat :=
  buckets.length

/-- Claim C3, counterexample: the claim asserts that a collection with
zero total documents gets a Timeliness score of 1.0, but
`check_data_timeliness` computes `... if total_count > 0 else 0`, which is
0, not 1.0. -/
theorem empty_collection_timeliness_is_zero :
    timeliness_score 0 0 = 0 ∧ (0 : ℚ) ≠ 1 := by
  constructor
  · rfl
  · decide

/-- Claim C3, amended: for a collection with zero total documents the
Uniqueness checker scores 1.0, but the Timeliness checker scores 0, and
the Completeness checker skips the collection entirely (its
`completeness_results` gets no entry), producing no score at all. -/
theorem empty_collection_scores :
    uniqueness_score 0 [] = 1
    ∧ timeliness_score 0 0 = 0
    ∧ (∀ fields, check_collection_completeness fields [] = none) := by
  refine ⟨rfl, rfl, fun fields => rfl⟩

/-- Claim C5, counterexample: the claim (citing the handler's
`check_data_uniqueness` among its sources) says duplicates are counted as
the sum of (group size − 1); but for a collection where one identity value
repeats 3 times — one duplicate bucket of size 3 — the handler reports
`duplicateRecords = len(buckets) = 1`, not 2. -/
theorem handler_counts_groups_not_extras :
    handler_duplicate_count [3] = 1 ∧ (1 : Nat) ≠ 2 := by
  constructor
  · rfl
  · decide

/-- Claim C5, amended: the pipeline's Uniqueness checker counts
`duplicate_count = Σ(groupSize − 1)` and scores
`(totalDocs − duplicateCount) / totalDocs` — for 10 documents with one
value repeated 3 times this gives duplicateCount 2 and score 0.8 — while
the handler's uniqueness check counts the number of duplicate groups
(1 in that scenario) and computes no score. -/
theorem uniqueness_duplicate_counting :
    duplicate_count [3] = 2
    ∧ uniqueness_score 10 [3] = 8 / 10
    ∧ (∀ total buckets, 0 < total →
        uniqueness_score total buckets =
          ((total : ℚ) - (duplicate_count buckets : ℚ)) / total)
    ∧ handler_duplicate_count [3] = 1 := by
  refine ⟨by decide, by norm_num [uniqueness_score, duplicate_count], ?_, rfl⟩
  intro total buckets htotal
  simp [uniqueness_score, htotal]

/-- Witness for the conditional conjunct of `uniqueness_duplicate_counting`
at total = 10, buckets = [3]. -/
theorem uniqueness_duplicate_counting_witness :
    uniqueness_score 10 [3] = ((10 : ℚ) - (duplicate_count [3] : ℚ)) / 10 :=
  uniqueness_duplicate_counting.2.2.1 10 [3] (by decide)

/-! ## Accuracy checker (data_quality_pipeline.py, check_data_accuracy /
validate_document_accuracy)

The Bedrock call inside `validate_document_accuracy` is modelled by its
outcome for the given document: either the model produced a response text,
or the call raised an exception. -/

/-- Outcome of the Bedrock accuracy-validation call for one document. -/
inductive ValidatorOutcome
  | ok (text : String)
  | failed (msg : String)
deriving DecidableEq, Repr

/-- `startsWith needle hay`: the character list `needle` starts the list `hay`. -/
def startsWith : List Char → List Char → Bool
  | [], _ => true
  | _ :: _, [] => false
  | a :: as, b :: bs => a == b && startsWith as bs

/-- `occursIn needle hay`: Python's `needle in hay` substring test. -/
def occursIn (needle : List Char) : List Char → Bool
  | [] => startsWith needle []
  | c :: rest => startsWith needle (c :: rest) || occursIn needle rest

/-- `validate_document_accuracy` (data_quality_pipeline.py lines 344-378):
on a response, returns whether `'ACCURATE' in validation_result.upper()`;
on an exception, returns `True` ("Default to accurate if validation
fails", line 378). -/
def validate_document_accuracy : ValidatorOutcome → Bool
  | .ok text => occursIn "ACCURATE".toList (text.toList.map Char.toUpper)
  | .failed _ => true

/-- `accurate_docs`: number of sampled documents counted accurate
(lines 151-160). -/
def accurate_docs (outcomes : List ValidatorOutcome) : Nat :=
  (outcomes.filter validate_document_accuracy).length

/-- `accuracy_score = accurate_docs / total_docs if total_docs > 0 else 0`
(line 162). -/
def accuracy_score (outcomes : List ValidatorOutcome) : ℚ :=
  if outcomes.length > 0 then (accurate_docs outcomes : ℚ) / outcomes.length else 0

/-- Claim C7, counterexample: the claim says a document whose validator
call fails is excluded from numerator and denominator, and an
all-exclusions sample fails with `InsufficientSample` instead of scoring
1.0 — but for a sample of one document whose validation raises,
`validate_document_accuracy` returns `True` and the checker reports an
accuracy score of exactly 1.0. -/
theorem validator_failure_scores_one :
    validate_document_accuracy (ValidatorOutcome.failed "bedrock timeout") = true
    ∧ accuracy_score [ValidatorOutcome.failed "bedrock timeout"] = 1 := by
  constructor
  · rfl
  · norm_num [accuracy_score, accurate_docs, validate_document_accuracy]

/-- Claim C7, amended: when the validator call raises for a document,
`validate_document_accuracy` returns `True`, so the document is counted as
accurate — included in both the numerator and the denominator of the
accuracy score; no `InsufficientSample` failure exists anywhere in the
code (a collection whose sample is empty is simply skipped by the
`if documents:` guard, line 150). -/
theorem validator_failure_counted_accurate :
    (∀ msg, validate_document_accuracy (ValidatorOutcome.failed msg) = true)
    ∧ (∀ outcomes msg,
        accurate_docs (outcomes ++ [ValidatorOutcome.failed msg]) =
          accurate_docs outcomes + 1)
    ∧ accuracy_score [ValidatorOutcome.failed "bedrock unavailable"] = 1 := by
  refine ⟨fun msg => rfl, fun outcomes msg => ?_, ?_⟩
  · simp [accurate_docs, validate_document_accuracy, List.filter_append]
  · norm_num [accuracy_score, accurate_docs, validate_document_accuracy]

/-! ## Alert policy (both files)

`generate_quality_alert` (data_quality_pipeline.py line 400) sets the
alert severity from the report's overall score; `_generate_quality_alert`
(handlers/data_quality.py line 379) sets a constant severity. -/

/-- `'severity': 'high' if report['overall_score'] < 0.7 else 'medium'`
(data_quality_pipeline.py line 400). -/
def pipeline_alert_severity (overall_score : ℚ) : String :=
  if overall_score < 7 / 10 then "high" else "medium"

/-- `'severity': 'high'` (handlers/data_quality.py line 379): the handler
always raises its quality alert at severity high. -/
def handler_alert_severity : String := "high"

/-- Claim C4, counterexample: the claim says a report with verdict fail
and overall score 0.3 produces a `critical` alert (overall score below
0.5); the pipeline's alert generator assigns severity `high` for an
overall score of 0.3, and no branch produces `critical`. -/
theorem low_score_alert_is_high_not_critical :
    pipeline_alert_severity (3 / 10) = "high"
    ∧ pipeline_alert_severity (3 / 10) ≠ "critical" := by
  constructor
  · norm_num [pipeline_alert_severity]
  · norm_num [pipeline_alert_severity]
    decide

/-- Claim C4, amended: the pipeline's quality alerts have severity `high`
when the report's overall score is below 0.7 and `medium` otherwise —
never `critical` — and the handler's quality alerts always have severity
`high`; in particular an overall score of 0.3 yields severity `high`. -/
theorem alert_severity_policy :
    (∀ s : ℚ, pipeline_alert_severity s = "high" ∨ pipeline_alert_severity s = "medium")
    ∧ (∀ s : ℚ, pipeline_alert_severity s ≠ "critical")
    ∧ pipeline_alert_severity (3 / 10) = "high"
    ∧ handler_alert_severity = "high" := by
  refine ⟨fun s => ?_, fun s => ?_, by norm_num [pipeline_alert_severity], rfl⟩
  · unfold pipeline_alert_severity
    by_cases h : s < 7 / 10 <;> simp [h]
  · unfold pipeline_alert_severity
    by_cases h : s < 7 / 10 <;> simp [h]

/-! ## Comprehensive orchestration (data_quality_pipeline.py, run_comprehensive_quality_check)

Each individual check method catches its own exceptions and returns an
HTTP-style response; the orchestrator classifies a check as `success`
exactly when its `statusCode` is 200, in which case the parsed body
carries the check's `overall_score`.  We model the outcome of each check
(including any exception raised before the method could return, caught by
the inner `try`) as a `CheckOutcome`, and the orchestrator as a function
of the environment assigning an outcome to each check name. -/

/-- Outcome of one individual check inside the comprehensive run. -/
inductive CheckOutcome
  | success (overall_score : ℚ) (meets_threshold : Bool)
  | error (msg : String)
deriving DecidableEq, Repr

/-- The score of a successful check, none for a failed one. -/
def outcomeScore : CheckOutcome → Option ℚ
  | .success s _ => some s
  | .error _ => none

/-- `results[check]['status'] == 'error'`. -/
def isErrorOutcome : CheckOutcome → Bool
  | .success _ _ => false
  | .error _ => true

/-- `checks = ['completeness', 'accuracy', 'timeliness', 'uniqueness']`
(data_quality_pipeline.py line 429): the checks the comprehensive run
executes, in source order.  Note there are four — no consistency check. -/
def pipeline_checks : List String :=
  ["completeness", "accuracy", "timeliness", "uniqueness"]

/-- `successful_checks = [r for r in results.values() if r['status'] == 'success']`,
projected to the scores read from their bodies (lines 454-456). -/
def successful_scores (results : List CheckOutcome) : List ℚ :=
  results.filterMap outcomeScore

/-- Lines 454-458: the comprehensive overall score is the mean of the
scores of the successful checks, and 0 when every check failed. -/
def overall_quality_score (results : List CheckOutcome) : ℚ :=
  if (successful_scores results).isEmpty then 0
  else (successful_scores results).sum / (successful_scores results).length

/-- Observable effects and response of one comprehensive run. -/
structure ComprehensiveRunResult where
  statusCode : Nat
  overall_score : ℚ
  checks_completed : Nat
  reports_persisted : Nat
  alerts_generated : Nat
deriving DecidableEq, Repr

/-- `run_comprehensive_quality_check` (lines 423-479): runs the checks of
`pipeline_checks` in order against the store (modelled by `env`),
computes the overall score over the successful ones, always persists one
comprehensive report via `store_quality_report` (line 467), never calls
`generate_quality_alert` itself, and returns statusCode 200 with the
score and the number of checks run. -/
def run_comprehensive_quality_check (env : String → CheckOutcome) :
    ComprehensiveRunResult :=
  let results := pipeline_checks.map env
  { statusCode := 200
  , overall_score := overall_quality_score results
  , checks_completed := results.length
  , reports_persisted := 1
  , alerts_generated := 0 }

/-! ## Handler scorer (handlers/data_quality.py, _calculate_overall_score)

A handler check result is its `status` plus whatever percentage fields its
dict carries; `_calculate_overall_score` (lines 353-371) turns each check
into a 0-100 score and averages over *all* checks. -/

/-- Status of one handler check (`'passed' | 'warning' | 'failed'`). -/
inductive CheckStatus
  | passed
  | warning
  | failed
deriving DecidableEq, Repr

/-- One element of `check_results['checks']`: its status and its numeric
fields (the dict keys that hold percentages). -/
structure HandlerCheck where
  status : CheckStatus
  fields : List (String × ℚ)
deriving DecidableEq, Repr

/-- The key-probing order of the `for key in [...]` loop (line 362). -/
def score_keys : List String :=
  ["completenessPercentage", "consistencyPercentage", "accuracyPercentage",
   "averageFreshness"]

/-- The first percentage key present in the check dict, if any
(the `for ... break / else` of lines 362-367). -/
def extract_percentage (c : HandlerCheck) : Option ℚ :=
  (score_keys.filterMap
    (fun k => (List.find? (fun p => p.1 == k) c.fields).map Prod.snd)).head?

/-- Score contributed by one check (lines 357-369): 100 for `passed`, the
extracted percentage (default 75) for `warning`, and 0 for `failed`. -/
def handlerCheckScore (c : HandlerCheck) : ℚ :=
  match c.status with
  | .passed => 100
  | .warning => (extract_percentage c).getD 75
  | .failed => 0

/-- `_calculate_overall_score` (lines 353-371): every check contributes
one entry to `scores`, failed ones included, and the result is the mean
over all of them (0 for an empty list). -/
def calculate_overall_score (checks : List HandlerCheck) : ℚ :=
  if checks.isEmpty then 0
  else (checks.map handlerCheckScore).sum / checks.length

/-- The order in which `run_comprehensive_checks`
(handlers/data_quality.py lines 36-55) appends its five check results:
completeness, consistency, accuracy, timeliness, uniqueness. -/
def handler_checks : List String :=
  ["completeness", "consistency", "accuracy", "timeliness", "uniqueness"]

/-- Spec-side definition, for comparison only: the canonical dimension
order the specification claims for `QualityReport.dimensionResults`
(completeness, accuracy, timeliness, consistency, uniqueness). -/
def spec_canonical_order : List String :=
  ["completeness", "accuracy", "timeliness", "consistency", "uniqueness"]

/-- Claim C1, counterexample: the claim says a failed dimension is
excluded from the overall average rather than contributing 0, but the
handler's `_calculate_overall_score` on a passed check plus a failed check
yields (100 + 0) / 2 = 50 — the failed check contributes a 0 score to the
denominator — whereas excluding it would yield 100. -/
theorem failed_check_contributes_zero :
    calculate_overall_score
      [⟨CheckStatus.passed, []⟩, ⟨CheckStatus.failed, []⟩] = 50
    ∧ (50 : ℚ) ≠ 100 := by
  constructor
  · norm_num [calculate_overall_score, handlerCheckScore]
  · norm_num

/-- Claim C1, amended: in the pipeline's comprehensive run the overall
score is indeed the unweighted mean of the scores of the checks that ran
successfully — appending a failed check leaves the score unchanged, and
the scores {0.9, 0.6, failed, 1.0} average to 5/6 ≈ 0.833 — but in the
handler's `_calculate_overall_score` a failed check contributes a score of
0 to an average over all checks instead of being excluded. -/
theorem overall_score_mean_of_successes :
    (∀ results msg,
        overall_quality_score (results ++ [CheckOutcome.error msg]) =
          overall_quality_score results)
    ∧ overall_quality_score
        [CheckOutcome.success (9 / 10) true, CheckOutcome.success (6 / 10) false,
         CheckOutcome.error "accuracy check failed", CheckOutcome.success 1 true] = 5 / 6
    ∧ (∀ fields, handlerCheckScore ⟨CheckStatus.failed, fields⟩ = 0)
    ∧ calculate_overall_score
        [⟨CheckStatus.passed, []⟩, ⟨CheckStatus.failed, []⟩] = 50 := by
  refine ⟨fun results msg => ?_, ?_, fun fields => rfl, ?_⟩
  · have h : successful_scores (results ++ [CheckOutcome.error msg]) =
        successful_scores results := by
      simp [successful_scores, outcomeScore]
    simp [overall_quality_score, h]
  · norm_num [overall_quality_score, successful_scores, outcomeScore,
      List.filterMap_cons, List.filterMap_nil]
  · norm_num [calculate_overall_score, handlerCheckScore]

/-- Claim C2, counterexample: the claim says that when every checker
fails the run itself fails with `NoUsableDimensions` and no report is
persisted; but when every check errors, `run_comprehensive_quality_check`
still returns statusCode 200 with overall score 0 and still persists its
comprehensive report. -/
theorem all_checks_fail_still_succeeds :
    (run_comprehensive_quality_check
        (fun _ => CheckOutcome.error "CollectionUnavailable")).statusCode = 200
    ∧ (run_comprehensive_quality_check
        (fun _ => CheckOutcome.error "CollectionUnavailable")).reports_persisted = 1
    ∧ (run_comprehensive_quality_check
        (fun _ => CheckOutcome.error "CollectionUnavailable")).overall_score = 0 := by
  refine ⟨rfl, rfl, ?_⟩
  norm_num [run_comprehensive_quality_check, overall_quality_score,
    successful_scores, outcomeScore, pipeline_checks]

/-- Claim C2, amended: if every checker in the comprehensive run fails,
the run does not fail — there is no `NoUsableDimensions` error in the
code; it reports overall score 0, still persists one comprehensive report,
raises no alert, and returns statusCode 200 to the caller. -/
theorem all_checkers_fail_behavior (env : String → CheckOutcome)
    (h : ∀ c ∈ pipeline_checks, isErrorOutcome (env c) = true) :
    (run_comprehensive_quality_check env).statusCode = 200
    ∧ (run_comprehensive_quality_check env).overall_score = 0
    ∧ (run_comprehensive_quality_check env).reports_persisted = 1
    ∧ (run_comprehensive_quality_check env).alerts_generated = 0 := by
  have hs : successful_scores (pipeline_checks.map env) = [] := by
    rw [successful_scores, List.filterMap_eq_nil_iff]
    intro a ha
    rw [List.mem_map] at ha
    obtain ⟨c, hc, rfl⟩ := ha
    have hec := h c hc
    cases hco : env c with
    | success s m => rw [hco] at hec; simp [isErrorOutcome] at hec
    | error m => simp [outcomeScore]
  exact ⟨rfl, by simp [run_comprehensive_quality_check, overall_quality_score, hs],
    rfl, rfl⟩

/-- Witness for `all_checkers_fail_behavior`: the all-failing environment. -/
theorem all_checkers_fail_behavior_witness :
    (run_comprehensive_quality_check
        (fun _ => CheckOutcome.error "store unreachable")).overall_score = 0 :=
  (all_checkers_fail_behavior (fun _ => CheckOutcome.error "store unreachable")
    (fun _ _ => rfl)).2.1

/-- Claim C6, counterexample: the claim says a comprehensive run executes
all five dimension checkers including consistency; the pipeline's
comprehensive run executes only four checks, and consistency is not among
them. -/
theorem comprehensive_omits_consistency :
    "consistency" ∉ pipeline_checks ∧ pipeline_checks.length = 4 := by
  decide

/-- Claim C6, amended: the pipeline's comprehensive run executes exactly
the four checks completeness, accuracy, timeliness, uniqueness, in that
source order (consistency omitted), while the handler's comprehensive run
executes five checks in the order completeness, consistency, accuracy,
timeliness, uniqueness — neither matches the claimed canonical order
completeness, accuracy, timeliness, consistency, uniqueness. -/
theorem comprehensive_check_order :
    (∀ env, (run_comprehensive_quality_check env).checks_completed = 4)
    ∧ "consistency" ∉ pipeline_checks
    ∧ handler_checks.length = 5
    ∧ "consistency" ∈ handler_checks
    ∧ handler_checks ≠ spec_canonical_order
    ∧ pipeline_checks ≠ spec_canonical_order := by
  exact ⟨fun env => rfl, by decide, by decide, by decide, by decide, by decide⟩

/-! ## Lambda dispatch (data_quality_pipeline.py, lambda_handler)

`lambda_handler` (lines 26-48) reads `event.get('check_type', 'comprehensive')`
and dispatches to a method of `self` by name.  Accessing an attribute that
the class does not define raises `AttributeError`, which the surrounding
`except Exception` turns into a `{'statusCode': 500, ...}` response.  The
dispatch is modelled by the method name each branch accesses, the class by
the list of method names it actually defines, and the behavior of the
defined methods by a function `impl` from method name to response. -/

/-- An HTTP-style lambda response: statusCode and serialized body. -/
structure LambdaResponse where
  statusCode : Nat
  body : String
deriving DecidableEq, Repr

/-- The methods defined on class `DataQualityPipeline`
(data_quality_pipeline.py lines 9-479), in source order.  Neither
`check_data_consistency` nor `validate_specific_dataset` is among them
(the former exists only on `DataQualityHandler` in
handlers/data_quality.py, a different class). -/
def pipelineMethods : List String :=
  ["lambda_handler", "check_data_completeness", "check_data_accuracy",
   "check_data_timeliness", "check_data_uniqueness",
   "validate_document_accuracy", "store_quality_report",
   "generate_quality_alert", "run_comprehensive_quality_check"]

/-- The attribute name each dispatch branch of `lambda_handler`
(lines 31-44) accesses on `self` for a given `check_type`. -/
def dispatchMethodName (check_type : String) : String :=
  if check_type == "completeness" then "check_data_completeness"
  else if check_type == "accuracy" then "check_data_accuracy"
  else if check_type == "timeliness" then "check_data_timeliness"
  else if check_type == "consistency" then "check_data_consistency"
  else if check_type == "uniqueness" then "check_data_uniqueness"
  else if check_type == "comprehensive" then "run_comprehensive_quality_check"
  else "validate_specific_dataset"

/-- The response the `except Exception` handler (lines 46-48) produces
when the accessed attribute does not exist on the class. -/
def attributeErrorResponse (method : String) : LambdaResponse :=
  { statusCode := 500
  , body := "object has no attribute " ++ method }

/-- `lambda_handler` (lines 26-48): default the check type to
`comprehensive`, resolve the branch's method name, and either run the
method (when the class defines it) or fall into the exception handler
with an `AttributeError` converted to a 500 response. -/
def pipeline_lambda_handler (impl : String → LambdaResponse)
    (event_check_type : Option String) : LambdaResponse :=
  let check_type := event_check_type.getD "comprehensive"
  let m := dispatchMethodName check_type
  if pipelineMethods.contains m then impl m else attributeErrorResponse m

/-- Claim C9: every invocation of the pipeline `lambda_handler` with
check_type `consistency` returns statusCode 500 — the dispatch accesses
`self.check_data_consistency`, which `DataQualityPipeline` does not
define, and the resulting `AttributeError` is converted to a 500 error
response, whatever the defined methods would have returned. -/
theorem consistency_check_type_returns_500 (impl : String → LambdaResponse) :
    (pipeline_lambda_handler impl (some "consistency")).statusCode = 500 := rfl

/-- The six check_type values `lambda_handler` recognizes with a
dedicated branch (lines 31-42). -/
def recognized_check_types : List String :=
  ["completeness", "accuracy", "timeliness", "consistency", "uniqueness",
   "comprehensive"]

/-- Claim C10: every invocation of the pipeline `lambda_handler` with a
check_type outside the six recognized values returns statusCode 500 — the
fallback branch accesses `self.validate_specific_dataset`, which is
defined nowhere, and the `AttributeError` is converted to a 500 error
response. -/
theorem unrecognized_check_type_returns_500 (impl : String → LambdaResponse)
    (check_type : String) (h : check_type ∉ recognized_check_types) :
    (pipeline_lambda_handler impl (some check_type)).statusCode = 500 := by
  simp only [recognized_check_types, List.mem_cons, List.not_mem_nil, or_false,
    not_or] at h
  obtain ⟨h1, h2, h3, h4, h5, h6⟩ := h
  have hd : dispatchMethodName check_type = "validate_specific_dataset" := by
    simp [dispatchMethodName, h1, h2, h3, h4, h5, h6]
  simp [pipeline_lambda_handler, hd, pipelineMethods, attributeErrorResponse]

/-- Witness for `unrecognized_check_type_returns_500` at the check_type
`papers-only`, which is none of the six recognized values. -/
theorem unrecognized_check_type_returns_500_witness :
    ("papers-only" ∉ recognized_check_types)
    ∧ (pipeline_lambda_handler (fun _ => ⟨200, "ok"⟩)
        (some "papers-only")).statusCode = 500 :=
  ⟨by decide, unrecognized_check_type_returns_500 (fun _ => ⟨200, "ok"⟩)
    "papers-only" (by decide)⟩

end DataQuality
